import Mathlib

set_option maxRecDepth 100000

/-!
Verification of the fake-news detection app (src/app.py) against its
natural-language specification.  The Python code is shallowly embedded:
pure helpers become Lean functions, the Streamlit session state becomes an
explicit `SessionState` record threaded through the handlers, and the
external collaborators (vectorizer, classifier, hash, clock, UI) become an
explicit `Env` of function fields whose calls may fail (`Except`).
-/

/-- Python's ASCII whitespace as used by `str.strip()` / `str.split()`
(space, tab, newline, carriage return, vertical tab, form feed). -/
def isPySpace (c : Char) : Bool :=
  c = ' ' || c = '\t' || c = '\n' || c = '\r' || c = '\x0b' || c = '\x0c'

/-- Model of Python `str.lower()` (ASCII range). -/
def pyLower (s : String) : String :=
  String.mk (s.toList.map Char.toLower)

/-- Model of Python `str.strip()`: drop whitespace from both ends. -/
def pyStrip (s : String) : String :=
  String.mk (((s.toList.dropWhile isPySpace).reverse.dropWhile isPySpace).reverse)

/-- `charsPrefixOf pat l` decides whether `pat` is a prefix of `l`. -/
def charsPrefixOf : List Char → List Char → Bool
  | [], _ => true
  | _ :: _, [] => false
  | p :: ps, c :: cs => p = c && charsPrefixOf ps cs

/-- `charsInfixOf pat l` decides whether `pat` occurs contiguously in `l`. -/
def charsInfixOf (pat : List Char) : List Char → Bool
  | [] => pat.isEmpty
  | c :: cs => charsPrefixOf pat (c :: cs) || charsInfixOf pat cs

/-- Model of Python's `pattern in text` substring test. -/
def strContains (text pattern : String) : Bool :=
  charsInfixOf pattern.toList text.toList

/-- Model of Python `len(s.split())`: the number of maximal runs of
non-whitespace characters. -/
def wordCountAux : Bool → List Char → Nat
  | _, [] => 0
  | inWord, c :: cs =>
    if isPySpace c then wordCountAux false cs
    else (if inWord then 0 else 1) + wordCountAux true cs

/-- Number of words of a string, as `len(s.split())` computes it. -/
def pyWordCount (s : String) : Nat :=
  wordCountAux false s.toList

/-- The correction text shared by the two South Tyneside Council table
entries (app.py lines 137 and 140). -/
def tyneside_correct_news : String :=
  "South Tyneside Council conducted a training session on identifying and responding to misinformation, not on hiding or correcting information. The session was about media literacy and helping staff recognize false information to better serve the public."

/-- The autism correction text (app.py line 143). -/
def autism_correct_news : String :=
  "Extensive scientific research has conclusively proven that vaccines do not cause autism. The original study claiming this link was fraudulent and has been retracted. Vaccines are safe and effective."

/-- The 5G correction text (app.py line 146). -/
def fiveg_correct_news : String :=
  "There is no scientific evidence linking 5G technology to COVID-19. Viruses cannot travel on radio waves or mobile networks. COVID-19 is caused by the SARS-CoV-2 virus and spreads through respiratory droplets."

/-- The static correction table `FAKE_NEWS_CORRECTIONS` (app.py lines
135-148), as a list of (pattern, correct_news) pairs in the dict's
insertion order (Python dicts preserve insertion order). -/
def FAKE_NEWS_CORRECTIONS : List (String × String) :=
  [("council staff told how to address fake news online", tyneside_correct_news),
   ("staff at south tyneside council are being advised when to hide or correct misinformation", tyneside_correct_news),
   ("vaccine causes autism", autism_correct_news),
   ("5g causes coronavirus", fiveg_correct_news)]

/-- `find_correction` (app.py lines 150-158): lowercase and strip the
input, then return the `correct_news` of the first table pattern that is a
substring of the normalized text, or none. -/
def find_correction (news_text : String) : Option String :=
  let normalized_text := pyStrip (pyLower news_text)
  (FAKE_NEWS_CORRECTIONS.find? (fun p => strContains normalized_text p.1)).map Prod.snd

/-- The per-entry `metadata` dict built by the Analyze handler
(app.py lines 270-278). -/
structure Metadata where
  author : String
  url : String
  shared_by : String
  share_count : Nat
  timestamp : Option String
  content_length : Nat
  word_count : Nat
deriving DecidableEq

/-- The `data_entry` dict built by `collect_data` (app.py lines 187-195):
one analysis record of the session store. -/
structure DataEntry where
  content_id : String
  content : String
  source : String
  timestamp : String
  prediction : String
  confidence : Option ℚ
  metadata : Metadata
deriving DecidableEq

/-- The Streamlit session state used by the app: the two lists
`st.session_state.collected_data` and `st.session_state.analysis_history`
(app.py lines 122-127). -/
structure SessionState where
  collected_data : List DataEntry
  analysis_history : List DataEntry
deriving DecidableEq

/-- The external collaborators of the app, as explicit functions: the
vectorizer's `transform`, the classifier's `predict` and `predict_proba`
(each may raise, modelled by `Except`), the MD5 hex digest of `hashlib`,
the clock `datetime.now().isoformat()`, and a flag recording whether one
of the Streamlit display calls inside the guarded block raises. -/
structure Env where
  transform : String → Except String (List ℚ)
  predict : List ℚ → Except String (List Int)
  predict_proba : List ℚ → Except String (List (List ℚ))
  md5_hexdigest : String → String
  now_iso : String
  display_fails : Bool

/-- `generate_content_id` (app.py lines 181-183): first 12 hex characters
of the MD5 digest of the content. -/
def generate_content_id (env : Env) (content : String) : String :=
  (env.md5_hexdigest content).take 12

/-- `collect_data` (app.py lines 185-198): build the record, append it to
both session lists, and return it. -/
def collect_data (env : Env) (st : SessionState) (content source : String)
    (metadata : Metadata) (prediction : Int) (confidence : Option ℚ) :
    SessionState × DataEntry :=
  let data_entry : DataEntry :=
    { content_id := generate_content_id env content
      content := content
      source := source
      timestamp := env.now_iso
      prediction := if prediction = 1 then "Real" else "Fake"
      confidence := confidence
      metadata := metadata }
  ({ collected_data := st.collected_data ++ [data_entry]
     analysis_history := st.analysis_history ++ [data_entry] },
   data_entry)

/-- The "Clear All Collected Data" button handler (app.py lines 448-451):
reset both session lists to empty. -/
def clear_all_collected_data (_st : SessionState) : SessionState :=
  { collected_data := [], analysis_history := [] }

/-- The inner `try` of the Analyze handler (app.py lines 262-267):
`confidence = max(proba[0]) * 100` when `predict_proba` succeeds and
yields a nonempty first row; any failure (no `predict_proba`, empty
result, empty row) makes `confidence = None`. -/
def computeConfidence (r : Except String (List (List ℚ))) : Option ℚ :=
  match r with
  | .error _ => none
  | .ok proba =>
    match proba.head? with
    | none => none
    | some [] => none
    | some (q :: qs) => some ((qs.foldl max q) * 100)

/-- Result of one press of the "Analyze Content" button, as seen by the
user: the empty-input warning (app.py line 327), the caught-exception
error message (line 325), or the displayed verdict (lines 288-308) with
the stored record, whether it was announced Real, and the correction text
shown (shown only in the Fake branch). -/
inductive AnalyzeOutcome where
  | emptyWarning : AnalyzeOutcome
  | predictionError (msg : String) : AnalyzeOutcome
  | displayed (entry : DataEntry) (isReal : Bool) (correctionShown : Option String) : AnalyzeOutcome
deriving DecidableEq

/-- The "Analyze Content" button handler (app.py lines 254-327).  The
guarded `try` block transforms the input, predicts, computes the optional
confidence, builds the metadata, appends the record via `collect_data`,
and then renders the result; an exception anywhere in the block is caught
and reported (line 325).  `prediction[0]` is evaluated before
`collect_data` is entered, so an empty prediction array fails before the
record is stored; a display failure happens after it is stored. -/
def analyzeHandler (env : Env) (st : SessionState)
    (inputn data_source author url shared_by : String)
    (share_count : Nat) (include_metadata : Bool) :
    SessionState × AnalyzeOutcome :=
  if pyStrip inputn = "" then (st, .emptyWarning)
  else
    match env.transform inputn with
    | .error e => (st, .predictionError e)
    | .ok transform_input =>
      match env.predict transform_input with
      | .error e => (st, .predictionError e)
      | .ok prediction =>
        let confidence := computeConfidence (env.predict_proba transform_input)
        let metadata : Metadata :=
          { author := if author = "" then "Unknown" else author
            url := if url = "" then "Not provided" else url
            shared_by := if shared_by = "" then "Unknown" else shared_by
            share_count := share_count
            timestamp := if include_metadata then some env.now_iso else none
            content_length := inputn.length
            word_count := pyWordCount inputn }
        match prediction.head? with
        | none => (st, .predictionError "IndexError")
        | some p0 =>
          let res := collect_data env st inputn data_source metadata p0 confidence
          if env.display_fails then (res.1, .predictionError "display failure")
          else if p0 = 1 then (res.1, .displayed res.2 true none)
          else (res.1, .displayed res.2 false (find_correction inputn))

/-- The record the handler stores on the success path: content id from
the hash, the raw content, source, clock timestamp, label mapped through
1 = Real / otherwise Fake, the optional confidence, and the metadata dict
with its Python-truthiness defaults.  This is the composite value built
by lines 259-281 of app.py, written out once for reuse in theorems. -/
def analyzedEntry (env : Env) (inputn ds au ur sb : String) (sc : Nat)
    (im : Bool) (p0 : Int) (ti : List ℚ) : DataEntry :=
  { content_id := (env.md5_hexdigest inputn).take 12
    content := inputn
    source := ds
    timestamp := env.now_iso
    prediction := if p0 = 1 then "Real" else "Fake"
    confidence := computeConfidence (env.predict_proba ti)
    metadata :=
      { author := if au = "" then "Unknown" else au
        url := if ur = "" then "Not provided" else ur
        shared_by := if sb = "" then "Unknown" else sb
        share_count := sc
        timestamp := if im then some env.now_iso else none
        content_length := inputn.length
        word_count := pyWordCount inputn } }

/-- A concrete environment for witnesses: the classifier answers label 1
(Real) and has no usable `predict_proba`. -/
def mdlEnv : Env :=
  { transform := fun _ => .ok [1]
    predict := fun _ => .ok [1]
    predict_proba := fun _ => .error "AttributeError"
    md5_hexdigest := fun _ => "0123456789abcdef0123456789abcdef"
    now_iso := "2026-01-01T00:00:00"
    display_fails := false }

/-- `mdlEnv`, but one of the Streamlit display calls in the guarded block
raises. -/
def displayFailEnv : Env := { mdlEnv with display_fails := true }

/-- `mdlEnv`, but the vectorizer's `transform` raises. -/
def transformFailEnv : Env := { mdlEnv with transform := fun _ => .error "ValueError" }

/-- `mdlEnv`, but with a working `predict_proba`. -/
def probaEnv : Env := { mdlEnv with predict_proba := fun _ => .ok [[(9:ℚ)/10, 1/10]] }

/-- The concrete record stored by `mdlEnv` when analyzing the text
"vaccine causes autism" from an empty session. -/
def entryReal : DataEntry :=
  { content_id := "0123456789ab"
    content := "vaccine causes autism"
    source := "News Article"
    timestamp := "2026-01-01T00:00:00"
    prediction := "Real"
    confidence := none
    metadata :=
      { author := "Unknown", url := "Not provided", shared_by := "Unknown",
        share_count := 0, timestamp := some "2026-01-01T00:00:00",
        content_length := 21, word_count := 3 } }

/-- JSON values, modelling the Python objects handled by `json.dump` /
`json.load`: null, arbitrary-precision integers, floats (modelled as
rationals), strings, arrays, and objects with ordered fields. -/
inductive JValue where
  | jnull : JValue
  | jint (n : Int) : JValue
  | jnum (q : ℚ) : JValue
  | jstr (s : String) : JValue
  | jarr (elems : List JValue) : JValue
  | jobj (fields : List (String × JValue)) : JValue

/-- The JSON object for a metadata dict, fields in the dict's insertion
order (app.py lines 270-278). -/
def metadataToJson (m : Metadata) : JValue :=
  .jobj [("author", .jstr m.author),
         ("url", .jstr m.url),
         ("shared_by", .jstr m.shared_by),
         ("share_count", .jint m.share_count),
         ("timestamp", match m.timestamp with | some t => .jstr t | none => .jnull),
         ("content_length", .jint m.content_length),
         ("word_count", .jint m.word_count)]

/-- The JSON object for one stored record, fields in the dict's insertion
order (app.py lines 187-195). -/
def entryToJson (e : DataEntry) : JValue :=
  .jobj [("content_id", .jstr e.content_id),
         ("content", .jstr e.content),
         ("source", .jstr e.source),
         ("timestamp", .jstr e.timestamp),
         ("prediction", .jstr e.prediction),
         ("confidence", match e.confidence with | some q => .jnum q | none => .jnull),
         ("metadata", metadataToJson e.metadata)]

/-- The JSON document `json.dump` writes for the store: the array of the
records in order (app.py lines 200-207). -/
def storeToJson (store : List DataEntry) : JValue :=
  .jarr (store.map entryToJson)

/-- `save_collected_data` (app.py lines 200-207): dump the store when it
is nonempty, return nothing otherwise.  The text layer of `json.dump` is
the Python library; the value written is modelled by its JSON tree. -/
def save_collected_data (st : SessionState) : Option JValue :=
  if st.collected_data.isEmpty then none else some (storeToJson st.collected_data)

/-- Modelled from the spec: parsing a JSON value back into an optional
rational, as `json.load` reads a confidence that was a number or null. -/
def optRatOfJson : JValue → Option (Option ℚ)
  | .jnull => some none
  | .jnum q => some (some q)
  | _ => none

/-- Modelled from the spec: parsing a JSON value back into an optional
string (a metadata timestamp that was a string or null). -/
def optStrOfJson : JValue → Option (Option String)
  | .jnull => some none
  | .jstr s => some (some s)
  | _ => none

/-- Modelled from the spec: parsing a JSON integer back into a
nonnegative count. -/
def natOfJson : JValue → Option Nat
  | .jint n => if 0 ≤ n then some n.toNat else none
  | _ => none

/-- Modelled from the spec: parsing the metadata object back,
field-for-field. -/
def metadataOfJson : JValue → Option Metadata
  | .jobj [("author", .jstr au), ("url", .jstr ur), ("shared_by", .jstr sb),
           ("share_count", scj), ("timestamp", tsj),
           ("content_length", clj), ("word_count", wcj)] =>
    match natOfJson scj, optStrOfJson tsj, natOfJson clj, natOfJson wcj with
    | some sc, some ts, some cl, some wc =>
        some { author := au, url := ur, shared_by := sb, share_count := sc,
               timestamp := ts, content_length := cl, word_count := wc }
    | _, _, _, _ => none
  | _ => none

/-- Modelled from the spec: parsing one record object back,
field-for-field. -/
def entryOfJson : JValue → Option DataEntry
  | .jobj [("content_id", .jstr cid), ("content", .jstr ct), ("source", .jstr src),
           ("timestamp", .jstr ts), ("prediction", .jstr pr),
           ("confidence", cfj), ("metadata", mdj)] =>
    match optRatOfJson cfj, metadataOfJson mdj with
    | some cf, some md =>
        some { content_id := cid, content := ct, source := src, timestamp := ts,
               prediction := pr, confidence := cf, metadata := md }
    | _, _ => none
  | _ => none

/-- Modelled from the spec: parsing a list of record objects back. -/
def entriesOfJson : List JValue → Option (List DataEntry)
  | [] => some []
  | j :: js =>
    match entryOfJson j, entriesOfJson js with
    | some e, some es => some (e :: es)
    | _, _ => none

/-- Modelled from the spec: parsing the exported JSON document back into
the sequence of records. -/
def storeOfJson : JValue → Option (List DataEntry)
  | .jarr elems => entriesOfJson elems
  | _ => none

/-- One CSV row of the "Export to CSV" handler (app.py lines 427-437):
`pd.DataFrame(collected_data)` keeps each dict value as one cell, in the
dicts' key insertion order, so a row is the seven record fields in order;
the nested metadata dict stays a single cell (pandas does not flatten
nested dicts).  Cell stringification by `to_csv` belongs to the library;
cells are modelled by their values. -/
def entryCells (e : DataEntry) : List JValue :=
  [.jstr e.content_id, .jstr e.content, .jstr e.source, .jstr e.timestamp,
   .jstr e.prediction,
   (match e.confidence with | some q => .jnum q | none => .jnull),
   metadataToJson e.metadata]

/-- The CSV table of the "Export to CSV" handler: the header (column
names in dict-key insertion order, per pandas `DataFrame` over a list of
same-keyed dicts with `to_csv(index=False)`) and one row per record.  The
export button is only reachable with a nonempty store (app.py line 406);
an empty store yields an empty frame. -/
def export_csv (store : List DataEntry) : List String × List (List JValue) :=
  if store.isEmpty then ([], [])
  else (["content_id", "content", "source", "timestamp", "prediction", "confidence", "metadata"],
        store.map entryCells)

/-- A concrete record used in counterexamples and witnesses. -/
def sampleEntry : DataEntry :=
  { content_id := "abcdefabcdef"
    content := "5g causes coronavirus now"
    source := "Twitter/X"
    timestamp := "2026-02-03T04:05:06"
    prediction := "Fake"
    confidence := some 95
    metadata :=
      { author := "someone", url := "Not provided", shared_by := "Unknown",
        share_count := 7, timestamp := none,
        content_length := 25, word_count := 4 } }

/-- If `List.find?` returns a hit, the list splits into an unmatched
front, the hit, and a tail. -/
theorem find_first_split {α : Type} (p : α → Bool) (l : List α) :
    ∀ x, l.find? p = some x →
      ∃ pre post, l = pre ++ x :: post ∧ p x = true ∧ ∀ y ∈ pre, p y = false := by
  induction l with
  | nil => intro x h; simp [List.find?] at h
  | cons a l ih =>
    intro x h
    by_cases hpa : p a = true
    · rw [List.find?_cons_of_pos _ hpa] at h
      obtain rfl : a = x := by injection h
      exact ⟨[], l, rfl, hpa, by simp⟩
    · have hpa' : p a = false := by simpa using hpa
      rw [List.find?_cons_of_neg _ (by simp [hpa'])] at h
      obtain ⟨pre, post, hl, hx, hpre⟩ := ih x h
      refine ⟨a :: pre, post, by rw [hl]; rfl, hx, ?_⟩
      intro y hy
      rcases List.mem_cons.mp hy with rfl | hy
      · exact hpa'
      · exact hpre y hy

/-- C1: `find_correction` normalizes by lowercasing and trimming and scans
the static table in its fixed insertion order: it returns none exactly
when no pattern occurs in the normalized input, and any hit is the
correction of the first matching pattern (no earlier pattern matches).
The two concrete examples from the specification hold. -/
theorem find_correction_spec :
    (∀ s : String, find_correction s = none ↔
        ∀ p ∈ FAKE_NEWS_CORRECTIONS, strContains (pyStrip (pyLower s)) p.1 = false)
    ∧ (∀ s c, find_correction s = some c →
        ∃ pre pat post, FAKE_NEWS_CORRECTIONS = pre ++ (pat, c) :: post
          ∧ strContains (pyStrip (pyLower s)) pat = true
          ∧ ∀ q ∈ pre, strContains (pyStrip (pyLower s)) q.1 = false)
    ∧ find_correction "VACCINE CAUSES AUTISM today" = some autism_correct_news
    ∧ find_correction "completely unrelated text" = none := by
  refine ⟨?_, ?_, by decide, by decide⟩
  · intro s
    simp only [find_correction, Option.map_eq_none', List.find?_eq_none]
    constructor
    · intro h p hp
      simpa using h p hp
    · intro h p hp
      simpa using h p hp
  · intro s c h
    simp only [find_correction, Option.map_eq_some'] at h
    obtain ⟨pr, hfind, hsnd⟩ := h
    obtain ⟨pre, post, hl, hx, hpre⟩ := find_first_split _ _ _ hfind
    refine ⟨pre, pr.1, post, ?_, hx, hpre⟩
    rw [← hsnd, Prod.mk.eta]
    exact hl

/-- Witness for C1 at the concrete autism example. -/
theorem find_correction_spec_witness :
    ∃ pre pat post, FAKE_NEWS_CORRECTIONS = pre ++ (pat, autism_correct_news) :: post
      ∧ strContains (pyStrip (pyLower "VACCINE CAUSES AUTISM today")) pat = true
      ∧ ∀ q ∈ pre, strContains (pyStrip (pyLower "VACCINE CAUSES AUTISM today")) q.1 = false :=
  find_correction_spec.2.1 "VACCINE CAUSES AUTISM today" autism_correct_news (by decide)

/-- C9: `find_correction` is deterministic: two calls with the same input
yield the same result (its correction table is a fixed constant of the
embedding, never mutated). -/
theorem find_correction_deterministic (s t : String) (h : s = t) :
    find_correction s = find_correction t := by rw [h]

/-- Witness for C9. -/
theorem find_correction_deterministic_witness :
    find_correction "5G causes coronavirus" = find_correction "5G causes coronavirus" :=
  find_correction_deterministic _ _ rfl

/-- C3: recording one entry and then another appends exactly those two
returned records, in order, after the previous store contents (for both
session lists), and clearing yields the empty store. -/
theorem record_append_and_clear (env : Env) (st : SessionState)
    (c1 s1 : String) (m1 : Metadata) (p1 : Int) (cf1 : Option ℚ)
    (c2 s2 : String) (m2 : Metadata) (p2 : Int) (cf2 : Option ℚ) :
    ((collect_data env (collect_data env st c1 s1 m1 p1 cf1).1 c2 s2 m2 p2 cf2).1.collected_data
        = st.collected_data
            ++ [(collect_data env st c1 s1 m1 p1 cf1).2,
                (collect_data env (collect_data env st c1 s1 m1 p1 cf1).1 c2 s2 m2 p2 cf2).2])
    ∧ ((collect_data env (collect_data env st c1 s1 m1 p1 cf1).1 c2 s2 m2 p2 cf2).1.analysis_history
        = st.analysis_history
            ++ [(collect_data env st c1 s1 m1 p1 cf1).2,
                (collect_data env (collect_data env st c1 s1 m1 p1 cf1).1 c2 s2 m2 p2 cf2).2])
    ∧ (collect_data env st c1 s1 m1 p1 cf1).1.collected_data
        = st.collected_data ++ [(collect_data env st c1 s1 m1 p1 cf1).2]
    ∧ (clear_all_collected_data st).collected_data = []
    ∧ (clear_all_collected_data st).analysis_history = [] := by
  refine ⟨?_, ?_, rfl, rfl, rfl⟩ <;>
    simp [collect_data, clear_all_collected_data]

/-- Inversion for the Analyze handler: whenever a verdict is displayed,
either it was announced Real (classifier label 1), the stored record says
"Real" and no correction is shown, or it was announced Fake, the record
says "Fake" and the correction shown is exactly `find_correction` of the
input. -/
theorem displayed_inversion (env : Env) (st : SessionState)
    (inputn ds au ur sb : String) (sc : Nat) (im : Bool)
    (e : DataEntry) (real : Bool) (c : Option String)
    (h : (analyzeHandler env st inputn ds au ur sb sc im).2 = .displayed e real c) :
    (real = true ∧ e.prediction = "Real" ∧ c = none)
    ∨ (real = false ∧ e.prediction = "Fake" ∧ c = find_correction inputn) := by
  unfold analyzeHandler at h
  repeat' split at h
  all_goals simp at h
  all_goals obtain ⟨he, hr, hc⟩ := h
  all_goals subst he
  all_goals subst hr
  all_goals subst hc
  all_goals first
    | exact Or.inl ⟨rfl, by simp_all [collect_data], rfl⟩
    | exact Or.inr ⟨rfl, by simp_all [collect_data], rfl⟩

/-- C5: the stored prediction field is exactly one of "Real"/"Fake" (never
both, never neither), classifier output 1 maps to Real and 0 to Fake, and
the displayed verdict agrees with the stored record's prediction field. -/
theorem classification_label_spec :
    (∀ (env : Env) (st : SessionState) (content source : String) (md : Metadata)
        (p : Int) (cf : Option ℚ),
        ((collect_data env st content source md p cf).2.prediction = "Real"
          ∨ (collect_data env st content source md p cf).2.prediction = "Fake")
        ∧ ¬((collect_data env st content source md p cf).2.prediction = "Real"
            ∧ (collect_data env st content source md p cf).2.prediction = "Fake")
        ∧ (p = 1 → (collect_data env st content source md p cf).2.prediction = "Real")
        ∧ (p = 0 → (collect_data env st content source md p cf).2.prediction = "Fake"))
    ∧ (∀ (env : Env) (st : SessionState) (inputn ds au ur sb : String) (sc : Nat) (im : Bool)
        (e : DataEntry) (real : Bool) (c : Option String),
        (analyzeHandler env st inputn ds au ur sb sc im).2 = .displayed e real c →
        ((real = true ↔ e.prediction = "Real") ∧ (real = false ↔ e.prediction = "Fake"))) := by
  constructor
  · intro env st content source md p cf
    refine ⟨?_, ?_, ?_, ?_⟩
    · by_cases hp : p = 1
      · left; simp [collect_data, hp]
      · right; simp [collect_data, hp]
    · rintro ⟨h1, h2⟩
      exact absurd (h1.symm.trans h2) (by decide)
    · intro hp; simp [collect_data, hp]
    · intro hp; norm_num [collect_data, hp]
  · intro env st inputn ds au ur sb sc im e real c h
    rcases displayed_inversion env st inputn ds au ur sb sc im e real c h with
      ⟨hr, hp, _⟩ | ⟨hr, hp, _⟩ <;> subst hr <;> rw [hp] <;>
      exact ⟨by decide, by decide⟩

/-- On the success path (non-empty input, transform and predict succeed,
prediction array nonempty) the Analyze handler appends exactly the
analyzed record and displays the verdict, unless the display raises. -/
theorem analyzeHandler_success_eq (env : Env) (st : SessionState)
    (inputn ds au ur sb : String) (sc : Nat) (im : Bool)
    (ti : List ℚ) (preds : List Int) (p0 : Int)
    (hne : pyStrip inputn ≠ "") (ht : env.transform inputn = .ok ti)
    (hp : env.predict ti = .ok preds) (h0 : preds.head? = some p0) :
    analyzeHandler env st inputn ds au ur sb sc im =
      ({ collected_data := st.collected_data ++ [analyzedEntry env inputn ds au ur sb sc im p0 ti]
         analysis_history := st.analysis_history ++ [analyzedEntry env inputn ds au ur sb sc im p0 ti] },
       if env.display_fails then .predictionError "display failure"
       else if p0 = 1 then .displayed (analyzedEntry env inputn ds au ur sb sc im p0 ti) true none
       else .displayed (analyzedEntry env inputn ds au ur sb sc im p0 ti) false (find_correction inputn)) := by
  unfold analyzeHandler
  simp only [if_neg hne, ht, hp, h0]
  simp only [collect_data, analyzedEntry, generate_content_id]
  by_cases hd : env.display_fails <;> simp only [hd] <;> simp <;>
    by_cases hp1 : p0 = 1 <;> simp [hp1]

/-- C4: input that is empty after trimming is rejected with the
empty-input warning for every environment (so neither the vectorizer nor
the classifier can influence the result) and the store is unchanged;
conversely the warning outcome never occurs for input that is non-empty
after trimming, so classification only happens for such input. -/
theorem empty_input_rejected :
    (∀ (env : Env) (st : SessionState) (inputn ds au ur sb : String) (sc : Nat) (im : Bool),
        pyStrip inputn = "" →
        analyzeHandler env st inputn ds au ur sb sc im = (st, .emptyWarning))
    ∧ (∀ (env : Env) (st : SessionState) (inputn ds au ur sb : String) (sc : Nat) (im : Bool),
        pyStrip inputn ≠ "" →
        (analyzeHandler env st inputn ds au ur sb sc im).2 ≠ .emptyWarning) := by
  constructor
  · intro env st inputn ds au ur sb sc im h
    unfold analyzeHandler
    rw [if_pos h]
  · intro env st inputn ds au ur sb sc im h
    unfold analyzeHandler
    rw [if_neg h]
    repeat' split
    all_goals simp

/-- Witness for C4 with whitespace-only input. -/
theorem empty_input_rejected_witness :
    analyzeHandler mdlEnv ⟨[], []⟩ "   " "News Article" "" "" "" 0 true
      = (⟨[], []⟩, .emptyWarning) :=
  empty_input_rejected.1 mdlEnv ⟨[], []⟩ "   " "News Article" "" "" "" 0 true (by decide)

/-- C2 counterexample: with a working classifier but a display call that
raises, the failure is caught and reported as a non-fatal error, yet the
session store is NOT left unchanged: `collect_data` ran before the
display, so the newly stored record remains afterwards. -/
theorem analyze_display_failure_counterexample :
    ((analyzeHandler displayFailEnv ⟨[], []⟩ "some fake story" "News Article" "" "" "" 0 true).2
        = .predictionError "display failure")
    ∧ (analyzeHandler displayFailEnv ⟨[], []⟩ "some fake story" "News Article" "" "" "" 0 true).1.collected_data
        ≠ ([] : List DataEntry) :=
  ⟨by decide, by decide⟩

/-- C2 (amended): every failure in the guarded block is caught and
reported as a non-fatal error outcome; a failure in transform, predict or
label extraction occurs before the record is stored, leaving the store
unchanged, while a display failure occurs after `collect_data`, leaving
exactly the one newly appended complete record; in every case the store
is either unchanged or extended by exactly one record at the end. -/
theorem analyze_failure_handling (env : Env) (st : SessionState)
    (inputn ds au ur sb : String) (sc : Nat) (im : Bool) :
    ((analyzeHandler env st inputn ds au ur sb sc im).1 = st
      ∨ ∃ e, (analyzeHandler env st inputn ds au ur sb sc im).1
          = { collected_data := st.collected_data ++ [e]
              analysis_history := st.analysis_history ++ [e] })
    ∧ (∀ msg, pyStrip inputn ≠ "" → env.transform inputn = .error msg →
        analyzeHandler env st inputn ds au ur sb sc im = (st, .predictionError msg))
    ∧ (∀ ti msg, pyStrip inputn ≠ "" → env.transform inputn = .ok ti →
        env.predict ti = .error msg →
        analyzeHandler env st inputn ds au ur sb sc im = (st, .predictionError msg))
    ∧ (∀ ti, pyStrip inputn ≠ "" → env.transform inputn = .ok ti →
        env.predict ti = .ok [] →
        analyzeHandler env st inputn ds au ur sb sc im = (st, .predictionError "IndexError"))
    ∧ (∀ ti preds p0, pyStrip inputn ≠ "" → env.transform inputn = .ok ti →
        env.predict ti = .ok preds → preds.head? = some p0 → env.display_fails = true →
        analyzeHandler env st inputn ds au ur sb sc im
          = ({ collected_data := st.collected_data ++ [analyzedEntry env inputn ds au ur sb sc im p0 ti]
               analysis_history := st.analysis_history ++ [analyzedEntry env inputn ds au ur sb sc im p0 ti] },
             .predictionError "display failure")) := by
  refine ⟨?_, ?_, ?_, ?_, ?_⟩
  · unfold analyzeHandler
    repeat' split
    all_goals first
      | exact Or.inl rfl
      | exact Or.inr ⟨_, rfl⟩
  · intro msg hne ht
    unfold analyzeHandler
    simp only [if_neg hne, ht]
  · intro ti msg hne ht hpr
    unfold analyzeHandler
    simp only [if_neg hne, ht, hpr]
  · intro ti hne ht hpr
    unfold analyzeHandler
    simp only [if_neg hne, ht, hpr]
    rfl
  · intro ti preds p0 hne ht hpr h0 hd
    rw [analyzeHandler_success_eq env st inputn ds au ur sb sc im ti preds p0 hne ht hpr h0]
    rw [hd]
    simp

/-- Witness for the amended C2 with a failing transform. -/
theorem analyze_failure_handling_witness :
    analyzeHandler transformFailEnv ⟨[], []⟩ "text" "News Article" "" "" "" 0 true
      = (⟨[], []⟩, .predictionError "ValueError") :=
  (analyze_failure_handling transformFailEnv ⟨[], []⟩ "text" "News Article" "" "" "" 0 true).2.1
    "ValueError" (by decide) rfl

/-- C10: a correction is displayed only when the verdict is Fake; when
the verdict is Real, no correction is shown even if `find_correction`
applied to the input would return one; when the verdict is Fake, what is
shown is exactly `find_correction` of the input. -/
theorem correction_shown_only_for_fake (env : Env) (st : SessionState)
    (inputn ds au ur sb : String) (sc : Nat) (im : Bool)
    (e : DataEntry) (real : Bool) (c : Option String)
    (h : (analyzeHandler env st inputn ds au ur sb sc im).2 = .displayed e real c) :
    (real = true → c = none) ∧ (real = false → c = find_correction inputn) := by
  rcases displayed_inversion env st inputn ds au ur sb sc im e real c h with
    ⟨hr, _, hc⟩ | ⟨hr, _, hc⟩ <;> subst hr
  · exact ⟨fun _ => hc, fun hf => absurd hf (by decide)⟩
  · exact ⟨fun hf => absurd hf (by decide), fun _ => hc⟩

/-- Witness for C10: the classifier says Real on a text for which
`find_correction` would return a correction, and none is shown. -/
theorem correction_shown_only_for_fake_witness :
    ((true = true → (none : Option String) = none)
      ∧ (true = false → (none : Option String) = find_correction "vaccine causes autism"))
    ∧ find_correction "vaccine causes autism" = some autism_correct_news :=
  ⟨correction_shown_only_for_fake mdlEnv ⟨[], []⟩ "vaccine causes autism" "News Article" "" "" "" 0 true
      entryReal true none (by decide),
   by decide⟩

/-- Witness for C5: the displayed verdict of a concrete Real analysis
agrees with the stored record. -/
theorem classification_label_spec_witness :
    (true = true ↔ entryReal.prediction = "Real")
    ∧ (true = false ↔ entryReal.prediction = "Fake") :=
  classification_label_spec.2 mdlEnv ⟨[], []⟩ "vaccine causes autism" "News Article" "" "" "" 0 true
    entryReal true none (by decide)

/-- The starting value is below a left fold of `max`. -/
theorem le_foldl_max (l : List ℚ) : ∀ a : ℚ, a ≤ l.foldl max a := by
  induction l with
  | nil => intro a; simp
  | cons x l ih => intro a; exact le_trans (le_max_left a x) (ih (max a x))

/-- A left fold of `max` stays below any common upper bound. -/
theorem foldl_max_le (b : ℚ) (l : List ℚ) :
    ∀ a : ℚ, a ≤ b → (∀ x ∈ l, x ≤ b) → l.foldl max a ≤ b := by
  induction l with
  | nil => intro a ha _; simpa using ha
  | cons x l ih =>
    intro a ha hl
    exact ih (max a x) (max_le ha (hl x (by simp))) (fun y hy => hl y (by simp [hy]))

/-- C8: on a successful analysis, when `predict_proba` succeeds with a
nonempty first probability row the stored confidence is that row's
maximum times 100 (and it lies in 0..100 whenever the row's entries lie
in 0..1); when the classifier does not expose `predict_proba`, this is
not an error — the analysis still stores a record and displays a verdict
— and the stored confidence is simply None. -/
theorem confidence_spec (env : Env) (st : SessionState)
    (inputn ds au ur sb : String) (sc : Nat) (im : Bool)
    (ti : List ℚ) (preds : List Int) (p0 : Int)
    (hne : pyStrip inputn ≠ "") (ht : env.transform inputn = .ok ti)
    (hp : env.predict ti = .ok preds) (h0 : preds.head? = some p0) :
    (∀ q qs rest, env.predict_proba ti = .ok ((q :: qs) :: rest) →
        ∃ e, (analyzeHandler env st inputn ds au ur sb sc im).1.collected_data
              = st.collected_data ++ [e]
          ∧ e.confidence = some ((qs.foldl max q) * 100)
          ∧ ((0 ≤ q ∧ q ≤ 1 ∧ ∀ r ∈ qs, 0 ≤ r ∧ r ≤ 1) →
              ∀ v, e.confidence = some v → 0 ≤ v ∧ v ≤ 100))
    ∧ (∀ msg, env.predict_proba ti = .error msg →
        ∃ e, (analyzeHandler env st inputn ds au ur sb sc im).1.collected_data
              = st.collected_data ++ [e]
          ∧ e.confidence = none
          ∧ (env.display_fails = false →
              ∃ real c, (analyzeHandler env st inputn ds au ur sb sc im).2
                  = .displayed e real c)) := by
  have heq := analyzeHandler_success_eq env st inputn ds au ur sb sc im ti preds p0 hne ht hp h0
  constructor
  · intro q qs rest hpp
    refine ⟨analyzedEntry env inputn ds au ur sb sc im p0 ti, ?_, ?_, ?_⟩
    · rw [heq]
    · simp [analyzedEntry, hpp, computeConfidence]
    · rintro ⟨hq0, hq1, hqs⟩ v hv
      have hcf : (analyzedEntry env inputn ds au ur sb sc im p0 ti).confidence
          = some ((qs.foldl max q) * 100) := by
        simp [analyzedEntry, hpp, computeConfidence]
      rw [hcf, Option.some.injEq] at hv
      subst hv
      have hm0 : 0 ≤ qs.foldl max q := le_trans hq0 (le_foldl_max qs q)
      have hm1 : qs.foldl max q ≤ 1 :=
        foldl_max_le 1 qs q hq1 (fun x hx => (hqs x hx).2)
      constructor <;> nlinarith [hm0, hm1]
  · intro msg hpp
    refine ⟨analyzedEntry env inputn ds au ur sb sc im p0 ti, ?_, ?_, ?_⟩
    · rw [heq]
    · simp [analyzedEntry, hpp, computeConfidence]
    · intro hdf
      rw [heq]
      simp only [hdf, Bool.false_eq_true, if_false]
      by_cases hp1 : p0 = 1
      · exact ⟨true, none, by simp [hp1]⟩
      · exact ⟨false, find_correction inputn, by simp [hp1]⟩

/-- Witness for C8: a classifier with probabilities (9/10, 1/10) stores
confidence 90. -/
theorem confidence_spec_witness :
    ∃ e, (analyzeHandler probaEnv ⟨[], []⟩ "sample claim" "News Article" "" "" "" 0 true).1.collected_data
          = ([] : List DataEntry) ++ [e]
      ∧ e.confidence = some (([(1:ℚ)/10].foldl max ((9:ℚ)/10)) * 100)
      ∧ ((0 ≤ (9:ℚ)/10 ∧ (9:ℚ)/10 ≤ 1 ∧ ∀ r ∈ [(1:ℚ)/10], 0 ≤ r ∧ r ≤ 1) →
          ∀ v, e.confidence = some v → 0 ≤ v ∧ v ≤ 100) :=
  (confidence_spec probaEnv ⟨[], []⟩ "sample claim" "News Article" "" "" "" 0 true
      [1] [1] 1 (by decide) rfl rfl rfl).1 ((9:ℚ)/10) [(1:ℚ)/10] [] rfl

/-- Parsing back the JSON object of a record recovers the record
field-for-field. -/
theorem entry_round_trip (e : DataEntry) : entryOfJson (entryToJson e) = some e := by
  rcases e with ⟨cid, ct, src, ts, pr, cf, md⟩
  rcases md with ⟨au, ur, sb, sc, mts, cl, wc⟩
  rcases cf with _ | q <;> rcases mts with _ | t <;>
    simp [entryToJson, entryOfJson, metadataToJson, metadataOfJson,
      natOfJson, optRatOfJson, optStrOfJson]

/-- Parsing back a serialized list of records recovers the list. -/
theorem entries_round_trip (store : List DataEntry) :
    entriesOfJson (store.map entryToJson) = some store := by
  induction store with
  | nil => rfl
  | cons e store ih => simp [entriesOfJson, entry_round_trip, ih]

/-- C6: parsing the JSON document produced for the session store yields a
sequence of records equal field-for-field to the in-memory store at
export time; in particular whatever document `save_collected_data`
writes parses back to exactly the store's contents. -/
theorem json_export_round_trip (st : SessionState) :
    storeOfJson (storeToJson st.collected_data) = some st.collected_data
    ∧ (∀ j, save_collected_data st = some j → storeOfJson j = some st.collected_data) := by
  constructor
  · simpa [storeToJson, storeOfJson] using entries_round_trip st.collected_data
  · intro j hj
    unfold save_collected_data at hj
    by_cases hemp : st.collected_data.isEmpty
    · rw [if_pos hemp] at hj; cases hj
    · rw [if_neg hemp, Option.some.injEq] at hj
      subst hj
      simpa [storeToJson, storeOfJson] using entries_round_trip st.collected_data

/-- Witness for C6 on a concrete one-record store. -/
theorem json_export_round_trip_witness :
    storeOfJson (storeToJson [sampleEntry]) = some [sampleEntry] :=
  (json_export_round_trip ⟨[sampleEntry], []⟩).2 (storeToJson [sampleEntry]) rfl

/-- C7 counterexample: for a concrete non-empty store the CSV header is
the seven record fields in dict insertion order — content, confidence and
a single un-flattened metadata column included — not the claimed order
content_id, source, prediction, timestamp followed by flattened metadata
columns; in particular there is no "author" column. -/
theorem export_csv_counterexample :
    (export_csv [sampleEntry]).1
        ≠ ["content_id", "source", "prediction", "timestamp", "author", "url",
           "shared_by", "share_count", "content_length", "word_count"]
    ∧ (export_csv [sampleEntry]).1
        = ["content_id", "content", "source", "timestamp", "prediction", "confidence", "metadata"]
    ∧ "author" ∉ (export_csv [sampleEntry]).1
    ∧ (export_csv [sampleEntry]).2 = [entryCells sampleEntry]
    ∧ (entryCells sampleEntry).getLast? = some (metadataToJson sampleEntry.metadata) := by
  refine ⟨by decide, rfl, by decide, rfl, rfl⟩

/-- C7 (amended): for every non-empty store the CSV export has one row
per record; its columns are the record dict's keys in insertion order —
content_id, content, source, timestamp, prediction, confidence, metadata
— and the metadata dict stays one single cell per row (it is not
flattened into author/url/shared_by/share_count/content_length/word_count
columns, none of which exist). -/
theorem export_csv_spec (store : List DataEntry) (h : store ≠ []) :
    (export_csv store).1
        = ["content_id", "content", "source", "timestamp", "prediction", "confidence", "metadata"]
    ∧ (export_csv store).2 = store.map entryCells
    ∧ (export_csv store).2.length = store.length
    ∧ (export_csv store).2.map (fun r => r.length) = store.map (fun _ => 7)
    ∧ (export_csv store).2.map (fun r => r.getLast?)
        = store.map (fun e => some (metadataToJson e.metadata))
    ∧ "author" ∉ (export_csv store).1 := by
  have hemp : store.isEmpty = false := by
    cases store with
    | nil => exact absurd rfl h
    | cons e l => rfl
  unfold export_csv
  rw [hemp]
  simp only [Bool.false_eq_true, if_false]
  refine ⟨by first | trivial | simp, by first | trivial | simp,
    by first | trivial | simp, ?_, ?_, by first | trivial | decide⟩
  · simp only [List.map_map]
    exact List.map_congr_left (fun e _ => rfl)
  · simp only [List.map_map]
    exact List.map_congr_left (fun e _ => rfl)

/-- Witness for the amended C7 on a concrete one-record store. -/
theorem export_csv_spec_witness :
    "author" ∉ (export_csv [sampleEntry]).1 :=
  (export_csv_spec [sampleEntry] (by decide)).2.2.2.2.2
